import Mathlib

/-!
Verification development for the instrument-control program `PyQtScope.py`
(Tektronix TDS2022B oscilloscope front end).  The bulk-transport framer,
the telemetry decoders and the metric formatter are embedded shallowly:
byte strings become `List ℕ`, Python floats become `ℚ`, and the two external
formatting/parsing primitives (`'%g' % x` rendering and `float(s)` parsing)
are passed as function parameters, since their exact behaviour lives in the
C runtime, not in this repository.  Fallible operations (struct.pack range
checks, list indexing, float parsing, dictionary lookup) return `Option`.
-/

namespace PyQtScope

/-- `self.btag = (self.btag % 255) + 1` — the tag update performed once per
`transmit_command` call and once per iteration of the `receive_result`
request loop. -/
def nextTag (t : ℕ) : ℕ := t % 255 + 1

/-- Python `~t & 0xFF`: bitwise complement is `-(t+1)`, and `& 0xFF` of a
Python int is its nonnegative remainder mod 256. -/
def invTag (t : ℕ) : ℕ := ((-(t + 1) : ℤ) % 256).toNat

/-- The four bytes of `struct.pack('<L', n)` (little-endian unsigned 32-bit). -/
def le32 (n : ℕ) : List ℕ := [n % 256, n / 256 % 256, n / 65536 % 256, n / 16777216 % 256]

/-- `transmit_command` on the bulk transport (`os.name == 'nt'` branch),
lines 145–152: given the current tag and the command bytes it returns the
updated tag together with the full bulk-out transfer
`struct.pack('BBBx', 1, btag, ~btag & 0xFF) + struct.pack('<LBxxx', size, 1)
 + command + b'\x00' * ((4 - size % 4) % 4)`.
`struct.pack` raises for a `B` field outside 0..255 or an `L` field outside
32 bits, modelled by `none`. -/
def transmit_command (t : ℕ) (command : List ℕ) : Option (ℕ × List ℕ) :=
  let size := command.length
  let t2 := nextTag t
  if t2 < 256 ∧ size < 4294967296 then
    some (t2, [1, t2, invTag t2, 0] ++ le32 size ++ [1, 0, 0, 0]
      ++ command ++ List.replicate ((4 - size % 4) % 4) 0)
  else none

/-- The bulk-out "request data" transfer built on each iteration of the
`receive_result` loop, lines 162–163:
`struct.pack('BBBx', 2, btag, ~btag & 0xFF) + struct.pack('<LBxxx', 1024, 0)`. -/
def requestPacket (t : ℕ) : Option (List ℕ) :=
  if t < 256 then some ([2, t, invTag t, 0] ++ le32 1024 ++ [0, 0, 0, 0]) else none

/-- `struct.unpack_from('<LBxxx', data, 4)` on an inbound packet: the payload
length is bytes 4–7 little-endian, the end-of-message flag is byte 8. -/
def pktSize (p : List ℕ) : ℕ :=
  p.getD 4 0 + 256 * p.getD 5 0 + 65536 * p.getD 6 0 + 16777216 * p.getD 7 0

/-- Byte 8 of an inbound packet: the end-of-message flag. -/
def pktEom (p : List ℕ) : ℕ := p.getD 8 0

/-- The payload slice `data[12:size+12]` the loop appends for one packet
(Python slicing truncates at the end of the buffer, as does `List.take`). -/
def pktPayload (p : List ℕ) : List ℕ := (p.drop 12).take (pktSize p)

/-- `struct.unpack_from` needs at least 8 bytes starting at offset 4;
on a shorter buffer it raises. -/
def unpackSizeStop (p : List ℕ) : Option (ℕ × ℕ) :=
  if 12 ≤ p.length then some (pktSize p, pktEom p) else none

/-- `receive_result` on the bulk transport, lines 156–167: starting from tag
`t` with the device due to deliver the packets in `packets` in order, loop:
bump the tag, send a "request data" transfer, read one packet, append
`data[12:size+12]`, stop when the EOM byte is non-zero.  Returns the final
tag, the reassembled response and the number of packets consumed; `none`
models blocking forever / an I/O error when the packets run out before EOM
(or a malformed short packet). -/
def receive_result (t : ℕ) : List (List ℕ) → List ℕ → Option (ℕ × List ℕ × ℕ)
  | [], _ => none
  | p :: rest, acc =>
    let t2 := nextTag t
    match requestPacket t2 with
    | none => none
    | some _ =>
      match unpackSizeStop p with
      | none => none
      | some (size, stop) =>
        let acc2 := acc ++ (p.drop 12).take size
        if stop ≠ 0 then some (t2, acc2, 1)
        else
          match receive_result t2 rest acc2 with
          | none => none
          | some (tf, res, n) => some (tf, res, n + 1)

end PyQtScope

namespace PyQtScope

lemma nextTag_iterate (n : ℕ) : nextTag^[n + 1] 0 = n % 255 + 1 := by
  induction n with
  | zero => rfl
  | succ k ih =>
    rw [Function.iterate_succ_apply', ih]
    unfold nextTag
    omega

lemma invTag_eq (t : ℕ) (h : t ≤ 255) : invTag t = 255 - t := by
  unfold invTag
  omega

lemma nextTag_le (t : ℕ) : 1 ≤ nextTag t ∧ nextTag t ≤ 255 := by
  unfold nextTag
  omega

/-- C1: across every `transmit_command` call and every iteration of the
`receive_result` request loop the tag counter, starting from its initial
value 0, takes exactly the cyclic sequence 1,2,…,255,1,2,… (after `n+1`
updates it equals `n % 255 + 1`, so it is never 0 and never exceeds 255),
and every outbound header — "send command" and "request data" alike —
carries the tag at offset 1 and `(~tag) & 0xFF = 255 - tag` at offset 2. -/
theorem tag_cycle_and_inverse (n : ℕ) (cmd : List ℕ) (hcmd : cmd.length < 4294967296) :
    1 ≤ nextTag^[n + 1] 0 ∧ nextTag^[n + 1] 0 ≤ 255 ∧
    nextTag^[n + 1] 0 = n % 255 + 1 ∧
    invTag (nextTag^[n + 1] 0) = 255 - nextTag^[n + 1] 0 ∧
    (∀ t' bytes, transmit_command (nextTag^[n] 0) cmd = some (t', bytes) →
      t' = nextTag^[n + 1] 0 ∧ bytes.get? 1 = some t' ∧ bytes.get? 2 = some (invTag t')) ∧
    (∀ h, requestPacket (nextTag^[n + 1] 0) = some h →
      h.get? 1 = some (nextTag^[n + 1] 0) ∧ h.get? 2 = some (invTag (nextTag^[n + 1] 0))) := by
  have hrange : nextTag^[n + 1] 0 = n % 255 + 1 := nextTag_iterate n
  have h1 : 1 ≤ nextTag^[n + 1] 0 := by omega
  have h2 : nextTag^[n + 1] 0 ≤ 255 := by have := Nat.mod_lt n (show 0 < 255 by norm_num); omega
  refine ⟨h1, h2, hrange, invTag_eq _ h2, ?_, ?_⟩
  · intro t' bytes htx
    have hiter : nextTag (nextTag^[n] 0) = nextTag^[n + 1] 0 :=
      (Function.iterate_succ_apply' nextTag n 0).symm
    unfold transmit_command at htx
    simp only [hiter] at htx
    rw [if_pos ⟨by omega, hcmd⟩] at htx
    obtain ⟨ht', hb⟩ := Prod.mk.injEq .. ▸ Option.some.injEq .. ▸ htx
    subst hb
    exact ⟨ht'.symm ▸ rfl, by simp [ht'], by simp [ht']⟩
  · intro h hreq
    unfold requestPacket at hreq
    rw [if_pos (by omega)] at hreq
    obtain rfl := Option.some.injEq .. ▸ hreq
    exact ⟨rfl, rfl⟩

set_option maxRecDepth 8000 in
/-- Witness for C1 at `n = 256`, `cmd = [68]`: the tag has wrapped past 255
back to 2, and both headers carry tag and inverse tag. -/
theorem tag_cycle_and_inverse_witness :
    1 ≤ nextTag^[257] 0 ∧ nextTag^[257] 0 ≤ 255 ∧
    nextTag^[257] 0 = 256 % 255 + 1 ∧
    invTag (nextTag^[257] 0) = 255 - nextTag^[257] 0 ∧
    (∀ t' bytes, transmit_command (nextTag^[256] 0) [68] = some (t', bytes) →
      t' = nextTag^[257] 0 ∧ bytes.get? 1 = some t' ∧ bytes.get? 2 = some (invTag t')) ∧
    (∀ h, requestPacket (nextTag^[257] 0) = some h →
      h.get? 1 = some (nextTag^[257] 0) ∧ h.get? 2 = some (invTag (nextTag^[257] 0))) :=
  tag_cycle_and_inverse 256 [68] (by norm_num)

end PyQtScope

namespace PyQtScope

lemma pktPayload_length (p : List ℕ) (h : 12 + pktSize p ≤ p.length) :
    (pktPayload p).length = pktSize p := by
  simp only [pktPayload, List.length_take, List.length_drop]
  omega

lemma receive_result_spec (init : List (List ℕ)) :
    ∀ (t : ℕ) (acc : List ℕ) (last : List ℕ) (extra : List (List ℕ)),
    (∀ p ∈ init, 12 ≤ p.length ∧ pktEom p = 0) →
    12 ≤ last.length → pktEom last ≠ 0 →
    receive_result t (init ++ last :: extra) acc =
      some (nextTag^[init.length + 1] t,
            acc ++ ((init ++ [last]).map pktPayload).flatten, init.length + 1) := by
  induction init with
  | nil =>
    intro t acc last extra _ hlen heom
    have h2 : nextTag t < 256 := by have := nextTag_le t; omega
    simp only [List.nil_append, receive_result, requestPacket, if_pos h2,
      unpackSizeStop, if_pos hlen]
    simp [heom, pktPayload]
  | cons p ps ih =>
    intro t acc last extra hinit hlen heom
    obtain ⟨hp_len, hp_eom⟩ := hinit p (List.mem_cons_self ..)
    have h2 : nextTag t < 256 := by have := nextTag_le t; omega
    simp only [List.cons_append, receive_result, requestPacket, if_pos h2,
      unpackSizeStop, if_pos hp_len, List.append_eq]
    rw [if_neg (by simp [hp_eom])]
    rw [ih (nextTag t) (acc ++ (p.drop 12).take (pktSize p)) last extra
      (fun q hq => hinit q (List.mem_cons_of_mem _ hq)) hlen heom]
    simp [pktPayload, Function.iterate_succ_apply, List.append_assoc]

/-- C2: for every sequence of `N ≥ 1` inbound packets — here `init ++ [last]`
with `N = init.length + 1` — whose headers carry payload lengths `Li` at
bytes 4–7 (little-endian) and whose EOM byte (offset 8) is non-zero only on
the final packet, `receive_result` returns exactly the concatenation of the
`N` payload slices `data[12 : 12+Li]`, of total length `ΣLi`, and the request
loop stops after exactly packet `N`: later packets `extra` are never read. -/
theorem receive_result_reassembles (t : ℕ) (init : List (List ℕ)) (last : List ℕ)
    (extra : List (List ℕ))
    (hinit : ∀ p ∈ init, 12 + pktSize p ≤ p.length ∧ pktEom p = 0)
    (hlast_len : 12 + pktSize last ≤ last.length) (hlast : pktEom last ≠ 0) :
    receive_result t (init ++ last :: extra) [] =
      some (nextTag^[init.length + 1] t,
            ((init ++ [last]).map pktPayload).flatten, init.length + 1) ∧
    (((init ++ [last]).map pktPayload).flatten).length =
      ((init ++ [last]).map pktSize).sum := by
  constructor
  · exact receive_result_spec init t [] last extra
      (fun p hp => ⟨by have := (hinit p hp).1; omega, (hinit p hp).2⟩)
      (by omega) hlast
  · rw [List.length_flatten, List.map_map]
    congr 1
    apply List.map_congr_left
    intro p hp
    rcases List.mem_append.1 hp with h | h
    · exact pktPayload_length p (hinit p h).1
    · simp only [List.mem_singleton] at h
      subst h
      exact pktPayload_length p hlast_len

/-- Witness for C2: two packets, the first carrying payload `[10, 20]`
(length 2, EOM 0), the second carrying `[30]` (length 1, EOM 1), plus an
extra packet that must not be consumed; the reassembled result is
`[10, 20, 30]` of length 3 and exactly 2 packets are consumed. -/
theorem receive_result_reassembles_witness :
    receive_result 0 ([[0, 0, 0, 0, 2, 0, 0, 0, 0, 0, 0, 0, 10, 20]] ++
        [0, 0, 0, 0, 1, 0, 0, 0, 1, 0, 0, 0, 30] :: [[9, 9, 9, 9, 9, 9, 9, 9, 9, 9, 9, 9]]) [] =
      some (nextTag^[2] 0,
        (([[0, 0, 0, 0, 2, 0, 0, 0, 0, 0, 0, 0, 10, 20]] ++
          [[0, 0, 0, 0, 1, 0, 0, 0, 1, 0, 0, 0, 30]]).map pktPayload).flatten, 2) ∧
    ((([[0, 0, 0, 0, 2, 0, 0, 0, 0, 0, 0, 0, 10, 20]] ++
      [[0, 0, 0, 0, 1, 0, 0, 0, 1, 0, 0, 0, 30]]).map pktPayload).flatten).length =
      (([[0, 0, 0, 0, 2, 0, 0, 0, 0, 0, 0, 0, 10, 20]] ++
        [[0, 0, 0, 0, 1, 0, 0, 0, 1, 0, 0, 0, 30]]).map pktSize).sum :=
  receive_result_reassembles 0 _ _ _ (by decide) (by decide) (by decide)

end PyQtScope

namespace PyQtScope

/-- C3 counterexample: the 8-byte command `b'DAT INIT'` (sent verbatim during
startup) produces a bulk-out transfer whose payload after the 12-byte header
is exactly the command bytes — `(4 - 8 % 4) % 4 = 0` padding bytes — so no
NUL terminator is ever transmitted after the command text. -/
theorem transmit_command_no_nul_counterexample :
    transmit_command 0 [68, 65, 84, 32, 73, 78, 73, 84] =
      some (1, [1, 1, 254, 0, 8, 0, 0, 0, 1, 0, 0, 0, 68, 65, 84, 32, 73, 78, 73, 84]) ∧
    ([1, 1, 254, 0, 8, 0, 0, 0, 1, 0, 0, 0, 68, 65, 84, 32, 73, 78, 73, 84] : List ℕ).drop 12 =
      [68, 65, 84, 32, 73, 78, 73, 84] ∧
    (0 : ℕ) ∉ ([68, 65, 84, 32, 73, 78, 73, 84] : List ℕ) := by
  refine ⟨?_, by decide, by decide⟩
  decide

/-- C3 amended: the "send command" transfer is the 12-byte header followed by
the raw command bytes and `(4 - len % 4) % 4` zero bytes — zero padding that
makes the payload length a multiple of 4, with NO unconditional NUL
terminator: the payload contains a NUL after the command text if and only if
the command length is not already a multiple of 4. -/
theorem transmit_command_padding (t : ℕ) (cmd : List ℕ) (hcmd : cmd.length < 4294967296) :
    ∃ bytes, transmit_command t cmd = some (nextTag t, bytes) ∧
      bytes.drop 12 = cmd ++ List.replicate ((4 - cmd.length % 4) % 4) 0 ∧
      (bytes.drop 12).length % 4 = 0 ∧
      bytes.length = 12 + (bytes.drop 12).length ∧
      ((0 : ℕ) ∈ (bytes.drop 12).drop cmd.length ↔ cmd.length % 4 ≠ 0) := by
  have ht : nextTag t < 256 := by have := nextTag_le t; omega
  refine ⟨_, by unfold transmit_command; rw [if_pos ⟨ht, hcmd⟩], ?_, ?_, ?_, ?_⟩ <;>
    simp [le32, List.drop_append_of_le_length, List.mem_replicate] <;>
    omega

/-- Witness for C3 amended at `t = 0`, `cmd = [65, 66, 67]` (length 3, so one
NUL pad byte is present). -/
theorem transmit_command_padding_witness :
    ∃ bytes, transmit_command 0 [65, 66, 67] = some (nextTag 0, bytes) ∧
      bytes.drop 12 = [65, 66, 67] ++ List.replicate ((4 - [65, 66, 67].length % 4) % 4) 0 ∧
      (bytes.drop 12).length % 4 = 0 ∧
      bytes.length = 12 + (bytes.drop 12).length ∧
      ((0 : ℕ) ∈ (bytes.drop 12).drop [65, 66, 67].length ↔ [65, 66, 67].length % 4 ≠ 0) :=
  transmit_command_padding 0 [65, 66, 67] (by norm_num)

/-- C4 counterexample: the "request data" header built with tag 1 is
`[2, 1, 254, 0, 0, 4, 0, 0, 0, 0, 0, 0]` — its end-of-message byte at
offset 8 is 0, not 1 as claimed (`struct.pack('<LBxxx', 1024, 0)`). -/
theorem request_header_counterexample :
    requestPacket 1 = some [2, 1, 254, 0, 0, 4, 0, 0, 0, 0, 0, 0] ∧
    ([2, 1, 254, 0, 0, 4, 0, 0, 0, 0, 0, 0] : List ℕ).get? 8 = some 0 ∧ (0 : ℕ) ≠ 1 := by
  refine ⟨?_, by decide, by decide⟩
  decide

/-- C4 amended: every "request data" header has message kind 2 at byte 0,
the requested chunk size 1024 as unsigned 32-bit little-endian at bytes 4–7,
and end-of-message byte 0 (not 1) at offset 8. -/
theorem request_header_fields (t : ℕ) (ht : t < 256) :
    ∃ h, requestPacket t = some h ∧ h.get? 0 = some 2 ∧
      (h.drop 4).take 4 = [0, 4, 0, 0] ∧ le32 1024 = [0, 4, 0, 0] ∧
      h.get? 8 = some 0 := by
  refine ⟨_, by unfold requestPacket; rw [if_pos ht], ?_, ?_, by decide, ?_⟩ <;>
    simp [le32]

/-- Witness for C4 amended at `t = 7`. -/
theorem request_header_fields_witness :
    ∃ h, requestPacket 7 = some h ∧ h.get? 0 = some 2 ∧
      (h.drop 4).take 4 = [0, 4, 0, 0] ∧ le32 1024 = [0, 4, 0, 0] ∧
      h.get? 8 = some 0 :=
  request_header_fields 7 (by norm_num)

end PyQtScope

namespace PyQtScope

/-- `metric_prefix` (lines 43–59) over an idealized exact-rational value.
The C-runtime rendering primitives are parameters: `g x` stands for
`'%g' % x` and `gs x` for `'% g' % x` (the space-flag variant the source
uses on the `1 ≤ |x| < 1000` branch); each format string's literal tail
(`' M'`, `' k'`, …) is appended after the conversion.  Thresholds and scale
factors are the exact rationals denoted by the source's float literals. -/
def metric_prefix (g gs : ℚ → String) (x : ℚ) : String :=
  if x = 0 then "0 "
  else if 1000000 ≤ |x| then g (x * (1 / 1000000)) ++ " M"
  else if 1000 ≤ |x| then g (x * (1 / 1000)) ++ " k"
  else if 1 ≤ |x| then gs x ++ " "
  else if 1 / 1000 ≤ |x| then g (x * 1000) ++ " m"
  else if 1 / 1000000 ≤ |x| then g (x * 1000000) ++ " u"
  else if 1 / 1000000000 ≤ |x| then g (x * 1000000000) ++ " n"
  else g x ++ " "

/-- C8 counterexample: `metric_prefix` applied to exactly 0 returns `"0 "` —
the digit zero followed by a trailing space (the separator every branch
emits before the unit letter) — not the bare literal `"0"`. -/
theorem metric_prefix_zero_counterexample :
    metric_prefix (fun _ => "") (fun _ => "") 0 = "0 " ∧ ("0 " : String) ≠ "0" := by
  constructor
  · simp [ metric_prefix]
  · decide

/-- C8 amended: `metric_prefix` applied to exactly 0 returns `"0 "` (zero
digit plus one trailing space, no metric suffix letter); the zero test is
the first rule, so the result is independent of both rendering primitives —
no scaled branch is ever evaluated for 0. -/
theorem metric_prefix_zero (g gs : ℚ → String) :
    metric_prefix g gs 0 = "0 " := by
  simp [ metric_prefix]

/-- Python `s.strip('"')`: remove every leading and trailing `"` character. -/
def stripQuotes (s : String) : String :=
  String.mk (((s.data.dropWhile (fun c => c = '"')).reverse.dropWhile
    (fun c => c = '"')).reverse)

/-- One measurement slot of `read_data` (lines 236–244): `typ`, `uni`, `val`
are the slot's kind, unit and value texts; `pf` is the `float(·)` parsing
primitive (`none` models `ValueError`).  Returns the displayed value/unit
pair, or `none` when the decode raises. -/
def decodeMeas (pf : String → Option ℚ) (g gs : ℚ → String) (typ uni val : String) :
    Option (String × String) :=
  if typ = "NONE" then some ("", "")
  else
    match pf val with
    | none => none
    | some v =>
      if 9900000000 < |v| then some ("?", "")
      else some ( metric_prefix g gs v, stripQuotes uni)

/-- A concrete `float(·)` stub used by witnesses: parses the two texts the
witnesses feed it and rejects everything else. -/
def pfEx (s : String) : Option ℚ :=
  if s = "1.0E10" then some 10000000000
  else if s = "1.0" then some 1
  else if s = "2.0" then some 2
  else none

/-- C6 counterexample: a slot whose value text is `"1.0E10"` (absolute value
exceeding 9.9e9) but whose kind text is `"NONE"` decodes to value `""` and
unit `""`, not to `"?"`: the `NONE` branch takes precedence over the
overflow sentinel, so the claimed "regardless of the kind text" fails. -/
theorem measurement_sentinel_counterexample :
    decodeMeas pfEx (fun _ => "") (fun _ => "") "NONE" "V" "1.0E10" = some ("", "") ∧
    (some ("", "") : Option (String × String)) ≠ some ("?", "") := by
  constructor
  · simp [decodeMeas]
  · decide

/-- C6 amended: for every slot whose kind text is NOT `"NONE"` and whose
value text parses to a number of absolute value exceeding 9.9e9, the decoded
value is the literal `"?"` and the unit is empty, regardless of the unit
text; with kind `"NONE"` the `NONE` branch wins instead. -/
theorem measurement_sentinel (pf : String → Option ℚ) (g gs : ℚ → String)
    (typ uni val : String) (v : ℚ)
    (htyp : typ ≠ "NONE") (hpf : pf val = some v) (hv : 9900000000 < |v|) :
    decodeMeas pf g gs typ uni val = some ("?", "") := by
  unfold decodeMeas
  rw [if_neg htyp, hpf]
  simp only [if_pos hv]

/-- Witness for C6 amended: kind `"FREQ"`, unit `"Hz"`, value text `"1.0E10"`
parsed by `pfEx` to 10^10. -/
theorem measurement_sentinel_witness :
    decodeMeas pfEx (fun _ => "") (fun _ => "") "FREQ" "Hz" "1.0E10" = some ("?", "") :=
  measurement_sentinel pfEx (fun _ => "") (fun _ => "") "FREQ" "Hz" "1.0E10"
    10000000000 (by decide) (by decide) (by norm_num)

end PyQtScope

namespace PyQtScope

/-- `np.linspace(a, b, num)[n] = a + n * (b - a) / (num - 1)` (numpy's
evenly spaced grid), idealized over exact rationals. -/
def linspaceVal (a b : ℚ) (num n : ℕ) : ℚ := a + n * (b - a) / ((num : ℚ) - 1)

/-- The time array of `save_data`, line 289:
`t = np.linspace(0.0, 2499.0, 2500) * float(self.format1[2]) + float(self.format1[4])`
with `xinc` = XINcr (`format1[2]`) and `xze` = XZEro (`format1[4]`). -/
def timeAt (xinc xze : ℚ) (n : ℕ) : ℚ := linspaceVal 0 2499 2500 n * xinc + xze

/-- The voltage conversion of `save_data`, lines 290–291:
`ch = (self.data - float(format[8])) * float(format[6])` with
`yoff` = YOFf (`format[8]`), `ymult` = YMUlt (`format[6]`) and `raw` the
signed 8-bit sample.  Note: YZEro (`format[7]`) is never read. -/
def voltAt (ymult yoff : ℚ) (raw : ℤ) : ℚ := ((raw : ℚ) - yoff) * ymult

/-- C7 counterexample: with preamble values y_zero = 1, y_multiplier = 1,
y_offset = 0 and raw sample 0, the code decodes the voltage to 0 while the
claimed formula `y_zero + y_multiplier × (raw − y_offset)` gives 1: the
code never adds the y_zero term (it reads `format[6]` and `format[8]` but
not `format[7]`). -/
theorem waveform_formula_counterexample :
    voltAt 1 0 0 = 0 ∧ (1 : ℚ) + 1 * (((0 : ℤ) : ℚ) - 0) = 1 ∧
    voltAt 1 0 0 ≠ 1 + 1 * (((0 : ℤ) : ℚ) - 0) := by
  norm_num [voltAt]

/-- C7 amended: for every parsed preamble and raw sample in [-128, 127], the
decoded time is `time(n) = x_zero + x_increment × n` for `n < 2500` and the
decoded voltage is `voltage(n) = y_multiplier × (raw − y_offset)` — the
y_zero preamble field does not enter the computation, so the claimed formula
holds exactly when y_zero = 0 (the invariant the source's comment records).
Both values are given by pure total functions of these inputs, hence
deterministic and idempotent. -/
theorem waveform_formulas (xze xinc yze ymult yoff : ℚ) (raw : ℤ) (n : ℕ)
    (_hn : n < 2500) (_hraw : -128 ≤ raw ∧ raw ≤ 127) :
    timeAt xinc xze n = xze + xinc * n ∧
    voltAt ymult yoff raw = ymult * ((raw : ℚ) - yoff) ∧
    (yze = 0 → voltAt ymult yoff raw = yze + ymult * ((raw : ℚ) - yoff)) := by
  refine ⟨?_, by unfold voltAt; ring, ?_⟩
  · unfold timeAt linspaceVal
    have h2499 : ((2500 : ℕ) : ℚ) - 1 = 2499 := by norm_num
    rw [h2499]
    field_simp
    ring
  · intro hyze
    subst hyze
    unfold voltAt
    ring

/-- Witness for C7 amended at x_zero = 1, x_increment = 2, y_zero = 0,
y_multiplier = 3, y_offset = 4, raw = 5, n = 7. -/
theorem waveform_formulas_witness :
    timeAt 2 1 7 = 1 + 2 * 7 ∧
    voltAt 3 4 5 = 3 * (((5 : ℤ) : ℚ) - 4) ∧
    ((0 : ℚ) = 0 → voltAt 3 4 5 = 0 + 3 * (((5 : ℤ) : ℚ) - 4)) :=
  waveform_formulas 1 2 0 3 4 5 7 (by norm_num) (by norm_num)

end PyQtScope

namespace PyQtScope

/-- Python `s.rsplit(';')` with no maxsplit (identical to `s.split(';')`):
split at every `';'`, keeping empty fields; the empty string yields one
empty field. -/
def splitFields : List Char → List (List Char)
  | [] => [[]]
  | c :: rest =>
    match splitFields rest with
    | [] => [[]]
    | f :: fs => if c = ';' then [] :: f :: fs else (c :: f) :: fs

/-- `s.rsplit(';')` on a decoded response string. -/
def rsplitSemi (s : String) : List String := (splitFields s.data).map String.mk

/-- The display fields `read_data` writes during one acquisition cycle: the
three scale captions (`none` models a caption that has been removed and set
to `None`, as in lines 91–93 and 197–207), the two stored preamble field
lists, the two sample buffers, the five measurement labels `meas1`–`meas5`
(as one list), and the six cursor labels. -/
structure DisplayState where
  sca1 : Option String
  sca2 : Option String
  scam : Option String
  format1 : List String
  format2 : List String
  buffer1 : List ℤ
  buffer2 : List ℤ
  measL : List String
  curst : String
  curs1 : String
  curs2 : String
  curs3 : String
  curs4 : String
  delta : String
deriving DecidableEq

/-- Lines 195–208: split the scale response and render the three captions
`CH1 …V`, `CH2 …V`, `M …s`.  Before each caption is rebuilt the old one is
removed and set to `None` (lines 197–199, 201–203, 205–207), and only then
is the field indexed and `float`-parsed inside the `figure.text(…)`
argument, so a raise leaves that caption already gone (`none`) while the
captions assigned earlier in the step keep their new text (`false` = the
step raised). -/
def scaleStep (pf : String → Option ℚ) (g gs : ℚ → String) (scaResp : String)
    (st : DisplayState) : DisplayState × Bool :=
  let sca := rsplitSemi scaResp
  let st := { st with sca1 := none }
  match sca.get? 0 with
  | none => (st, false)
  | some s0 =>
    match pf s0 with
    | none => (st, false)
    | some v0 =>
      let st := { st with sca1 := some ("CH1 " ++ metric_prefix g gs v0 ++ "V") }
      let st := { st with sca2 := none }
      match sca.get? 1 with
      | none => (st, false)
      | some s1 =>
        match pf s1 with
        | none => (st, false)
        | some v1 =>
          let st := { st with sca2 := some ("CH2 " ++ metric_prefix g gs v1 ++ "V") }
          let st := { st with scam := none }
          match sca.get? 2 with
          | none => (st, false)
          | some s2 =>
            match pf s2 with
            | none => (st, false)
            | some v2 =>
              ({ st with scam := some ("M " ++ metric_prefix g gs v2 ++ "s") }, true)

/-- Lines 211–214: store the two semicolon-split waveform-preamble field
lists verbatim in `format1`/`format2`.  No arity check is performed, so this
step never fails. -/
def formatStep (wfm1 wfm2 : String) (st : DisplayState) : DisplayState × Bool :=
  ({ st with format1 := rsplitSemi wfm1, format2 := rsplitSemi wfm2 }, true)

/-- Lines 217–222: `self.buffer[:] = self.receive_result(2507)[6:-1]` per
channel — drop the 6-byte block header and the trailing terminator byte.
`buffer1`/`buffer2` carry live `np.frombuffer` exports (lines 73–74), so the
2500-byte bytearrays cannot be resized: the slice assignment raises
`BufferError` unless the trimmed payload is exactly 2500 bytes, leaving that
buffer unchanged.  Channel 1 is assigned before channel 2 is read, so a
raise on channel 2 keeps channel 1's new samples (`false` = the step
raised). -/
def curveStep (c1 c2 : List ℤ) (st : DisplayState) : DisplayState × Bool :=
  let p1 := (c1.drop 6).dropLast
  if p1.length = 2500 then
    let st := { st with buffer1 := p1 }
    let p2 := (c2.drop 6).dropLast
    if p2.length = 2500 then ({ st with buffer2 := p2 }, true)
    else (st, false)
  else (st, false)

/-- One iteration of the measurement loop (lines 231–245): fetch the four
texts of slot `i` from the combined split response, decode them, and build
the label text `'%s %s %s%s' % (sou, typ, val, uni)`. -/
def measSlot (pf : String → Option ℚ) (g gs : ℚ → String) (meas : List String)
    (i : ℕ) : Option String := do
  let typ ← meas.get? (i * 4 + 0)
  let uni ← meas.get? (i * 4 + 1)
  let sou ← meas.get? (i * 4 + 2)
  let val ← meas.get? (i * 4 + 3)
  let p ← decodeMeas pf g gs typ uni val
  pure (sou ++ " " ++ typ ++ " " ++ p.1 ++ p.2)

/-- The `for i in range(0, 5)` measurement loop: decode each slot in turn
and set `self.meas<i+1>`; the first failing slot raises, leaving earlier
slots' labels updated and later ones untouched. -/
def measPhase (pf : String → Option ℚ) (g gs : ℚ → String) (meas : List String) :
    List ℕ → DisplayState → DisplayState × Bool
  | [], st => (st, true)
  | i :: rest, st =>
    match measSlot pf g gs meas i with
    | none => (st, false)
    | some s => measPhase pf g gs meas rest { st with measL := st.measL.set i s }

/-- The class attribute
`cursors = {'OFF':'OFF', 'HBARS':'AMPLITUDE', 'VBARS':'TIME'}`; `none`
models the `KeyError` raised for any other mode text. -/
def cursorsMap (m : String) : Option String :=
  if m = "OFF" then some "OFF"
  else if m = "HBARS" then some "AMPLITUDE"
  else if m = "VBARS" then some "TIME"
  else none

/-- The cursor block of `read_data` (lines 248–278): set `curst` from field 1
and the mode lookup, then branch on the mode text, assigning the cursor
labels in the source's order; a raise part-way through keeps the labels
assigned so far (`false` = the step raised).  In the VBARS branch both arms
assign `curs1` (resp. `curs3`) from the same field before diverging, so the
common assignment is hoisted. -/
def cursorStep (pf : String → Option ℚ) (g gs : ℚ → String) (cursResp : String)
    (st : DisplayState) : DisplayState × Bool :=
  let curs := rsplitSemi cursResp
  match curs.get? 1 with
  | none => (st, false)
  | some c1 =>
    match curs.get? 0 with
    | none => (st, false)
    | some m =>
      match cursorsMap m with
      | none => (st, false)
      | some label =>
        let st := { st with curst := c1 ++ " " ++ label }
        if m = "VBARS" then
          match (curs.get? 8).bind pf with
          | none => (st, false)
          | some v8 =>
            match (curs.get? 3).bind pf with
            | none => (st, false)
            | some v3 =>
              let st := { st with curs1 := metric_prefix g gs v3 ++ "s" }
              let st := { st with curs2 :=
                if 9900000000 < |v8| then "" else metric_prefix g gs v8 ++ "V" }
              match (curs.get? 9).bind pf with
              | none => (st, false)
              | some v9 =>
                match (curs.get? 4).bind pf with
                | none => (st, false)
                | some v4 =>
                  let st := { st with curs3 := metric_prefix g gs v4 ++ "s" }
                  let st := { st with curs4 :=
                    if 9900000000 < |v9| then "" else metric_prefix g gs v9 ++ "V" }
                  match (curs.get? 11).bind pf with
                  | none => (st, false)
                  | some v11 =>
                    ({ st with delta := "dt = " ++ metric_prefix g gs v11 ++ "s" }, true)
        else if m = "HBARS" then
          match (curs.get? 6).bind pf with
          | none => (st, false)
          | some v6 =>
            let st := { st with curs1 := metric_prefix g gs v6 ++ "V" }
            let st := { st with curs2 := "" }
            match (curs.get? 7).bind pf with
            | none => (st, false)
            | some v7 =>
              let st := { st with curs3 := metric_prefix g gs v7 ++ "V" }
              let st := { st with curs4 := "" }
              match (curs.get? 10).bind pf with
              | none => (st, false)
              | some v10 =>
                ({ st with delta := "dV = " ++ metric_prefix g gs v10 ++ "V" }, true)
        else
          let st := { st with curs1 := "" }
          let st := { st with curs2 := "" }
          let st := { st with curs3 := "" }
          let st := { st with curs4 := "" }
          ({ st with delta := "" }, true)

/-- The body of `read_data`'s `try:` block (lines 192–279) over the decoded,
terminator-stripped response texts of the cycle's queries: the scale
response, the two preamble responses, the two curve byte payloads, the
combined measurement response and the cursor response.  The surrounding
`except:` (lines 280–282) only prints, so when a step raises the state
reached at that point is returned unchanged — no rollback. -/
def readCycle (pf : String → Option ℚ) (g gs : ℚ → String)
    (scaResp wfm1 wfm2 : String) (c1 c2 : List ℤ) (measResp cursResp : String)
    (st : DisplayState) : DisplayState :=
  let r1 := scaleStep pf g gs scaResp st
  if r1.2 = false then r1.1 else
  let r2 := formatStep wfm1 wfm2 r1.1
  let r3 := curveStep c1 c2 r2.1
  if r3.2 = false then r3.1 else
  let r4 := measPhase pf g gs (rsplitSemi measResp) [0, 1, 2, 3, 4] r3.1
  if r4.2 = false then r4.1 else
  (cursorStep pf g gs cursResp r4.1).1

/-- A concrete display state used by counterexamples and witnesses; its
preamble lists carry the `['0'] * 11` initial value from `__init__`
(lines 75–76) and its buffers the `bytearray(2500)` initial value (lines
71–72), the other field values are arbitrary markers. -/
def stEx : DisplayState :=
  { sca1 := some "A", sca2 := some "B", scam := some "C",
    format1 := List.replicate 11 "0", format2 := List.replicate 11 "0",
    buffer1 := List.replicate 2500 0, buffer2 := List.replicate 2500 0,
    measL := ["m1", "m2", "m3", "m4", "m5"], curst := "T", curs1 := "P",
    curs2 := "Q", curs3 := "R", curs4 := "S", delta := "D" }

end PyQtScope

namespace PyQtScope

/-- C5 counterexample: a waveform-preamble response with only two
semicolon-delimited fields is accepted by the preamble step without any
decode error — the step reports success and stores the 2-element field list
verbatim in place of the previous 11-element preamble. -/
theorem preamble_no_arity_check_counterexample :
    (formatStep "a;b" "c" stEx).2 = true ∧
    (formatStep "a;b" "c" stEx).1.format1 = ["a", "b"] ∧
    ¬ (["a", "b"] : List String).length = 11 := by
  refine ⟨rfl, ?_, by decide⟩
  show rsplitSemi "a;b" = ["a", "b"]
  decide

/-- C5 amended: `read_data` performs NO arity check on the waveform
preamble: for every response text the format step succeeds and stores the
semicolon-split field list verbatim, however many fields it has — a short
list is silently accepted, and a failure can only surface later when a
missing index is accessed (e.g. in `save_data`). -/
theorem preamble_stored_unchecked (wfm1 wfm2 : String) (st : DisplayState) :
    (formatStep wfm1 wfm2 st).2 = true ∧
    (formatStep wfm1 wfm2 st).1.format1 = rsplitSemi wfm1 ∧
    (formatStep wfm1 wfm2 st).1.format2 = rsplitSemi wfm2 :=
  ⟨rfl, rfl, rfl⟩

/-- C9: when the cursor-mode field decodes to OFF, the cursor step sets all
four positional outputs and the delta output to the empty string (and the
mode caption to field 1 followed by the OFF label), for every combination of
position and delta fields present in the rest of the response, every parsing
and rendering primitive, and every prior state; the step completes without
raising. -/
theorem cursor_mode_off (pf : String → Option ℚ) (g gs : ℚ → String)
    (cursResp c1 : String) (rest : List String) (st : DisplayState)
    (h : rsplitSemi cursResp = "OFF" :: c1 :: rest) :
    cursorStep pf g gs cursResp st =
      ({ st with
          curst := c1 ++ " " ++ "OFF"
          curs1 := ""
          curs2 := ""
          curs3 := ""
          curs4 := ""
          delta := "" }, true) := by
  unfold cursorStep
  rw [h]
  simp [cursorsMap]

/-- Witness for C9 on the response text `"OFF;X;1;2"` — position fields 1
and 2 are present and ignored. -/
theorem cursor_mode_off_witness :
    cursorStep pfEx (fun _ => "") (fun _ => "") "OFF;X;1;2" stEx =
      ({ stEx with
          curst := "X" ++ " " ++ "OFF"
          curs1 := ""
          curs2 := ""
          curs3 := ""
          curs4 := ""
          delta := "" }, true) :=
  cursor_mode_off pfEx (fun _ => "") (fun _ => "") "OFF;X;1;2" "X" ["1", "2"] stEx
    (by decide)

end PyQtScope

namespace PyQtScope

lemma scaleStep_shape (pf : String → Option ℚ) (g gs : ℚ → String) (scaResp : String)
    (st : DisplayState) :
    ∃ a b c, (scaleStep pf g gs scaResp st).1 =
      { st with sca1 := a, sca2 := b, scam := c } := by
  unfold scaleStep
  dsimp only
  repeat' split
  all_goals exact ⟨_, _, _, rfl⟩

lemma measSlot_fail (pf : String → Option ℚ) (g gs : ℚ → String) (meas : List String)
    (i : ℕ) (typ valT : String)
    (htyp : meas.get? (i * 4) = some typ) (htypne : typ ≠ "NONE")
    (huni : (meas.get? (i * 4 + 1)).isSome) (hsou : (meas.get? (i * 4 + 2)).isSome)
    (hval : meas.get? (i * 4 + 3) = some valT) (hpf : pf valT = none) :
    measSlot pf g gs meas i = none := by
  obtain ⟨uni, huni2⟩ := Option.isSome_iff_exists.mp huni
  obtain ⟨sou, hsou2⟩ := Option.isSome_iff_exists.mp hsou
  simp only [List.get?_eq_getElem?] at htyp huni2 hsou2 hval
  simp [measSlot, htyp, huni2, hsou2, hval, decodeMeas, htypne, hpf]

end PyQtScope

namespace PyQtScope

lemma measPhase_partial (pf : String → Option ℚ) (g gs : ℚ → String)
    (meas : List String) (i : ℕ) (st : DisplayState)
    (hm5 : st.measL.length = 5) (hi : i < 5)
    (hpre : ∀ j, j < i → (measSlot pf g gs meas j).isSome)
    (hfail : measSlot pf g gs meas i = none) :
    (measPhase pf g gs meas [0, 1, 2, 3, 4] st).2 = false ∧
    ∃ l, (measPhase pf g gs meas [0, 1, 2, 3, 4] st).1 = { st with measL := l } ∧
      (∀ j, j < i → l.get? j = measSlot pf g gs meas j) ∧
      (∀ j, i ≤ j → l.get? j = st.measL.get? j) := by
  interval_cases i
  · refine ⟨by simp [measPhase, hfail], st.measL, by simp [measPhase, hfail], ?_, ?_⟩
    · intro j hj; omega
    · intro j _; rfl
  · obtain ⟨s0, hs0⟩ := Option.isSome_iff_exists.mp (hpre 0 (by norm_num))
    refine ⟨by simp [measPhase, hs0, hfail], st.measL.set 0 s0,
      by simp [measPhase, hs0, hfail], ?_, ?_⟩
    · intro j hj
      interval_cases j
      simp [hs0, List.get?_eq_getElem?, hm5]
    · intro j hj
      have h0 : (0 : ℕ) ≠ j := by omega
      simp [List.get?_eq_getElem?, List.getElem?_set_ne, h0]
  · obtain ⟨s0, hs0⟩ := Option.isSome_iff_exists.mp (hpre 0 (by norm_num))
    obtain ⟨s1, hs1⟩ := Option.isSome_iff_exists.mp (hpre 1 (by norm_num))
    refine ⟨by simp [measPhase, hs0, hs1, hfail], (st.measL.set 0 s0).set 1 s1,
      by simp [measPhase, hs0, hs1, hfail], ?_, ?_⟩
    · intro j hj
      interval_cases j <;>
        simp [hs0, hs1, List.get?_eq_getElem?, List.length_set, hm5]
    · intro j hj
      have h0 : (0 : ℕ) ≠ j := by omega
      have h1 : (1 : ℕ) ≠ j := by omega
      simp [List.get?_eq_getElem?, List.getElem?_set_ne, h0, h1]
  · obtain ⟨s0, hs0⟩ := Option.isSome_iff_exists.mp (hpre 0 (by norm_num))
    obtain ⟨s1, hs1⟩ := Option.isSome_iff_exists.mp (hpre 1 (by norm_num))
    obtain ⟨s2, hs2⟩ := Option.isSome_iff_exists.mp (hpre 2 (by norm_num))
    refine ⟨by simp [measPhase, hs0, hs1, hs2, hfail],
      ((st.measL.set 0 s0).set 1 s1).set 2 s2,
      by simp [measPhase, hs0, hs1, hs2, hfail], ?_, ?_⟩
    · intro j hj
      interval_cases j <;>
        simp [hs0, hs1, hs2, List.get?_eq_getElem?, List.length_set, hm5]
    · intro j hj
      have h0 : (0 : ℕ) ≠ j := by omega
      have h1 : (1 : ℕ) ≠ j := by omega
      have h2 : (2 : ℕ) ≠ j := by omega
      simp [List.get?_eq_getElem?, List.getElem?_set_ne, h0, h1, h2]
  · obtain ⟨s0, hs0⟩ := Option.isSome_iff_exists.mp (hpre 0 (by norm_num))
    obtain ⟨s1, hs1⟩ := Option.isSome_iff_exists.mp (hpre 1 (by norm_num))
    obtain ⟨s2, hs2⟩ := Option.isSome_iff_exists.mp (hpre 2 (by norm_num))
    obtain ⟨s3, hs3⟩ := Option.isSome_iff_exists.mp (hpre 3 (by norm_num))
    refine ⟨by simp [measPhase, hs0, hs1, hs2, hs3, hfail],
      (((st.measL.set 0 s0).set 1 s1).set 2 s2).set 3 s3,
      by simp [measPhase, hs0, hs1, hs2, hs3, hfail], ?_, ?_⟩
    · intro j hj
      interval_cases j <;>
        simp [hs0, hs1, hs2, hs3, List.get?_eq_getElem?, List.length_set, hm5]
    · intro j hj
      have h0 : (0 : ℕ) ≠ j := by omega
      have h1 : (1 : ℕ) ≠ j := by omega
      have h2 : (2 : ℕ) ≠ j := by omega
      have h3 : (3 : ℕ) ≠ j := by omega
      simp [List.get?_eq_getElem?, List.getElem?_set_ne, h0, h1, h2, h3]

end PyQtScope

namespace PyQtScope

/-- C10: if decoding measurement slot `i` fails — its value text is rejected
by `float(·)` while its kind text is not `"NONE"` — after the scale step
succeeded, both curve payloads trimmed to exactly the 2500 bytes the pinned
buffers require, and slots `0..i-1` decoded, the raised exception aborts the
remainder of the acquisition cycle at the cycle boundary (the `except:` of
lines 280–282): the final state keeps the new scale captions, preamble
lists and sample buffers written by the earlier steps of the same cycle,
and the new labels of the slots before `i`, while slot `i`, every later
slot, and all six cursor outputs keep exactly the values they had before
this cycle — no rollback, and the cursor step never runs. -/
theorem cycle_abort_frame (pf : String → Option ℚ) (g gs : ℚ → String)
    (scaResp wfm1 wfm2 : String) (c1 c2 : List ℤ) (measResp cursResp : String)
    (st stF : DisplayState) (i : ℕ) (typ valT : String)
    (hm5 : st.measL.length = 5)
    (hsca : (scaleStep pf g gs scaResp st).2 = true)
    (hc1 : ((c1.drop 6).dropLast).length = 2500)
    (hc2 : ((c2.drop 6).dropLast).length = 2500)
    (hi : i < 5)
    (hpre : ∀ j, j < i → (measSlot pf g gs (rsplitSemi measResp) j).isSome)
    (htyp : (rsplitSemi measResp).get? (i * 4) = some typ)
    (htypne : typ ≠ "NONE")
    (huni : ((rsplitSemi measResp).get? (i * 4 + 1)).isSome)
    (hsou : ((rsplitSemi measResp).get? (i * 4 + 2)).isSome)
    (hval : (rsplitSemi measResp).get? (i * 4 + 3) = some valT)
    (hpf : pf valT = none)
    (hstF : stF = readCycle pf g gs scaResp wfm1 wfm2 c1 c2 measResp cursResp st) :
    stF.sca1 = (scaleStep pf g gs scaResp st).1.sca1 ∧
    stF.sca2 = (scaleStep pf g gs scaResp st).1.sca2 ∧
    stF.scam = (scaleStep pf g gs scaResp st).1.scam ∧
    stF.format1 = rsplitSemi wfm1 ∧
    stF.format2 = rsplitSemi wfm2 ∧
    stF.buffer1 = (c1.drop 6).dropLast ∧
    stF.buffer2 = (c2.drop 6).dropLast ∧
    (∀ j, j < i → stF.measL.get? j = measSlot pf g gs (rsplitSemi measResp) j) ∧
    (∀ j, i ≤ j → stF.measL.get? j = st.measL.get? j) ∧
    stF.curst = st.curst ∧ stF.curs1 = st.curs1 ∧ stF.curs2 = st.curs2 ∧
    stF.curs3 = st.curs3 ∧ stF.curs4 = st.curs4 ∧ stF.delta = st.delta := by
  have hfail : measSlot pf g gs (rsplitSemi measResp) i = none :=
    measSlot_fail pf g gs _ i typ valT htyp htypne huni hsou hval hpf
  obtain ⟨a, b, c, hS⟩ := scaleStep_shape pf g gs scaResp st
  have hPS5 :
      ((curveStep c1 c2
        ((formatStep wfm1 wfm2 (scaleStep pf g gs scaResp st).1).1)).1).measL.length = 5 := by
    simp [curveStep, formatStep, hS, hm5, hc1, hc2]
  obtain ⟨hflag, l, hl, hlt, hge⟩ :=
    measPhase_partial pf g gs (rsplitSemi measResp) i
      ((curveStep c1 c2 ((formatStep wfm1 wfm2 (scaleStep pf g gs scaResp st).1).1)).1)
      hPS5 hi hpre hfail
  have hcv : (curveStep c1 c2
      ((formatStep wfm1 wfm2 (scaleStep pf g gs scaResp st).1).1)).2 = true := by
    simp [curveStep, hc1, hc2]
  have hred : readCycle pf g gs scaResp wfm1 wfm2 c1 c2 measResp cursResp st
      = (measPhase pf g gs (rsplitSemi measResp) [0, 1, 2, 3, 4]
          ((curveStep c1 c2
            ((formatStep wfm1 wfm2 (scaleStep pf g gs scaResp st).1).1)).1)).1 := by
    unfold readCycle
    dsimp only
    rw [hsca, if_neg (by decide : ¬ (true = false)), hcv,
      if_neg (by decide : ¬ (true = false)), hflag, if_pos rfl]
  subst hstF
  rw [hred, hl]
  refine ⟨by simp [curveStep, formatStep, hc1, hc2],
    by simp [curveStep, formatStep, hc1, hc2],
    by simp [curveStep, formatStep, hc1, hc2],
    by simp [curveStep, formatStep, hc1, hc2],
    by simp [curveStep, formatStep, hc1, hc2],
    by simp [curveStep, formatStep, hc1, hc2],
    by simp [curveStep, formatStep, hc1, hc2], ?_, ?_,
    by simp [curveStep, formatStep, hS, hc1, hc2],
    by simp [curveStep, formatStep, hS, hc1, hc2],
    by simp [curveStep, formatStep, hS, hc1, hc2],
    by simp [curveStep, formatStep, hS, hc1, hc2],
    by simp [curveStep, formatStep, hS, hc1, hc2],
    by simp [curveStep, formatStep, hS, hc1, hc2]⟩
  · intro j hj
    have hproj :
        ({ (curveStep c1 c2
            ((formatStep wfm1 wfm2 (scaleStep pf g gs scaResp st).1).1)).1 with
              measL := l } : DisplayState).measL = l := rfl
    rw [hproj]
    exact hlt j hj
  · intro j hj
    have hproj :
        ({ (curveStep c1 c2
            ((formatStep wfm1 wfm2 (scaleStep pf g gs scaResp st).1).1)).1 with
              measL := l } : DisplayState).measL = l := rfl
    rw [hproj, hge j hj]
    simp [curveStep, formatStep, hS, hc1, hc2]

end PyQtScope

namespace PyQtScope

/-- The final state of a concrete aborted cycle: the scale step succeeds,
both curve responses are the full 2507 bytes (trimming to exactly the 2500
samples the pinned buffers require), measurement slot 0 decodes, slot 1 has
kind `"PERI"` with the unparsable value text `"XX"`. -/
def stFEx : DisplayState :=
  readCycle pfEx (fun _ => "") (fun _ => "") "1.0;1.0;2.0" "a;b" "c"
    (List.replicate 2507 0) (List.replicate 2507 1)
    "FREQ;Hz;CH1;1.0;PERI;s;CH2;XX" "x" stEx

/-- Witness for C10 at the concrete aborted cycle of `stFEx` (failing slot
`i = 1`): the scale captions, preambles, buffers and slot 0 are updated,
slots 1–4 and all cursor outputs keep their old values. -/
theorem cycle_abort_frame_witness :
    stFEx.sca1 =
      (scaleStep pfEx (fun _ => "") (fun _ => "") "1.0;1.0;2.0" stEx).1.sca1 ∧
    stFEx.sca2 =
      (scaleStep pfEx (fun _ => "") (fun _ => "") "1.0;1.0;2.0" stEx).1.sca2 ∧
    stFEx.scam =
      (scaleStep pfEx (fun _ => "") (fun _ => "") "1.0;1.0;2.0" stEx).1.scam ∧
    stFEx.format1 = rsplitSemi "a;b" ∧
    stFEx.format2 = rsplitSemi "c" ∧
    stFEx.buffer1 = ((List.replicate 2507 (0 : ℤ)).drop 6).dropLast ∧
    stFEx.buffer2 = ((List.replicate 2507 (1 : ℤ)).drop 6).dropLast ∧
    (∀ j, j < 1 → stFEx.measL.get? j =
      measSlot pfEx (fun _ => "") (fun _ => "")
        (rsplitSemi "FREQ;Hz;CH1;1.0;PERI;s;CH2;XX") j) ∧
    (∀ j, 1 ≤ j → stFEx.measL.get? j = stEx.measL.get? j) ∧
    stFEx.curst = stEx.curst ∧ stFEx.curs1 = stEx.curs1 ∧ stFEx.curs2 = stEx.curs2 ∧
    stFEx.curs3 = stEx.curs3 ∧ stFEx.curs4 = stEx.curs4 ∧ stFEx.delta = stEx.delta :=
  cycle_abort_frame pfEx (fun _ => "") (fun _ => "") "1.0;1.0;2.0" "a;b" "c"
    (List.replicate 2507 0) (List.replicate 2507 1)
    "FREQ;Hz;CH1;1.0;PERI;s;CH2;XX" "x" stEx stFEx
    1 "PERI" "XX" (by decide) (by decide)
    (by simp only [List.length_dropLast, List.length_drop, List.length_replicate])
    (by simp only [List.length_dropLast, List.length_drop, List.length_replicate])
    (by norm_num)
    (by intro j hj; interval_cases j; decide)
    (by decide) (by decide) (by decide) (by decide) (by decide) (by decide) rfl

end PyQtScope
